import Mathlib

/-!
Verification of the BookmarkManager content-to-summary pipeline.

This file gives a shallow embedding, in Lean, of the core pipeline of the
repository: the heuristic response-quality assessor
(BaseAIProvider.assessResponseQuality), the Claude summarization provider
(ClaudeProvider.summarize), the tiered web-content extractor
(ProgressiveWebScraperService), and the in-process job queue / orchestrator
(AIService).  Numeric quality scores, which the source manipulates as decimal
literals, are modelled as exact rationals; all the deductions and thresholds
in the source are decimal fractions, and at every comparison the source
performs on reachable score values the rational result agrees with the
IEEE-double result.  Fallible or external steps (HTTP requests, JSON parsing,
the platform URL parser, cheerio extraction) are modelled as explicit oracle
inputs, so every function here is total and executable.
-/

set_option maxRecDepth 20000

/-! ## Lightweight model of the JavaScript regular-expression tests

Every regular expression used by the quality assessor has the shape
`/lit1.*lit2.*lit3/i`: plain literals joined by `.*`.  Such a pattern
matches a string exactly when the literals occur, in order and without
overlap, as substrings.  We model a pattern as the list of its literal
parts (written lowercase) and test it against a lowercased haystack.
This model ignores that a bare `.` in JavaScript does not match a
newline; none of the concrete strings examined below contain newlines,
so on them the model is exact, and in general the model can only match
more often than the source, which is the safe direction for every
non-matching fact proved here. -/

/-- Search the haystack for the first occurrence of the literal `pat`;
return the remainder of the haystack after that occurrence, or `none`. -/
def dropAfterMatch (pat : List Char) : List Char → Option (List Char)
  | [] => if pat.isEmpty then some [] else none
  | c :: rest =>
    if pat.isPrefixOf (c :: rest) then some ((c :: rest).drop pat.length)
    else dropAfterMatch pat rest

/-- Test a `.*`-separated literal pattern against a character list:
each literal part must occur after the end of the previous one. -/
def seqTest : List (List Char) → List Char → Bool
  | [], _ => true
  | p :: ps, s =>
    match dropAfterMatch p s with
    | none => false
    | some s2 => seqTest ps s2

/-- Lowercase the characters of a string (model of `toLowerCase` for the
case-insensitive `/i` regex flag; the pattern literals are written
lowercase already). -/
def lowerChars (s : String) : List Char :=
  s.data.map Char.toLower

/-- Case-insensitive test of one `/lit1.*lit2.../i` pattern against a string. -/
def regexTest (parts : List String) (s : String) : Bool :=
  seqTest (parts.map String.data) (lowerChars s)

/-- Substring test (model of `String.prototype.includes`, case sensitive). -/
def containsSub (s pat : String) : Bool :=
  (dropAfterMatch pat.data s.data).isSome

/-- Model of the JavaScript `split` with a one-character separator:
`"a/b".split(sep)` keeps empty pieces, and the empty string splits to a
single empty piece. -/
def splitCharAux (sep : Char) : List Char → List Char → List (List Char)
  | [], cur => [cur.reverse]
  | c :: rest, cur =>
    if c = sep then cur.reverse :: splitCharAux sep rest []
    else splitCharAux sep rest (c :: cur)

/-- JavaScript `s.split(sep)` over character lists. -/
def splitChar (sep : Char) (cs : List Char) : List (List Char) :=
  splitCharAux sep cs []

/-- JavaScript `s.substring(0, n)` over character lists wrapped back into
a string. -/
def takeStr (n : Nat) (s : String) : String :=
  String.mk (s.data.take n)

/-- Whether a line survives the `filter((line) => line.trim())` of the
parse fallback: its trimmed form is truthy, i.e. it has a character that
is not whitespace. -/
def lineNonBlank (cs : List Char) : Bool :=
  cs.any (fun c => !c.isWhitespace)

/-! ## Data model (src/backend/src/ai/types.ts) -/

/-- The four suggested actions of `ResponseQualityAssessment.suggestedAction`. -/
inductive SuggestedAction where
  | accept
  | retry_different_scraping
  | use_metadata_only
  | mark_as_failed
deriving DecidableEq, Repr

/-- The issue taxonomy of `ResponseQualityIssue.type`. -/
inductive IssueType where
  | insufficient_content
  | generic_response
  | error_acknowledgment
  | incomplete_analysis
  | low_confidence
  | content_blocked
deriving DecidableEq, Repr

/-- `ResponseQualityIssue.severity`. -/
inductive Severity where
  | low
  | medium
  | high
deriving DecidableEq, Repr

/-- `ResponseQualityIssue` (types.ts). -/
structure ResponseQualityIssue where
  type : IssueType
  severity : Severity
  description : String
  suggestedFix : Option String
deriving DecidableEq, Repr

/-- `AISummaryResult` (types.ts).  Optional fields of the TypeScript
interface are `Option`s; `confidence` and `qualityScore` are modelled as
exact rationals. -/
structure AISummaryResult where
  shortSummary : String
  longSummary : String
  tags : Option (List String)
  category : Option String
  provider : String
  confidence : ℚ
  error : Option String
  qualityScore : Option ℚ
  qualityIssues : Option (List String)
deriving DecidableEq, Repr

/-- `ResponseQualityAssessment` (types.ts). -/
structure ResponseQualityAssessment where
  isHighQuality : Bool
  qualityScore : ℚ
  issues : List ResponseQualityIssue
  suggestedAction : SuggestedAction
  confidence : ℚ
deriving DecidableEq, Repr

/-! ## Response quality assessor (src/unnamed/part_022, BaseAIProvider) -/

/-- The `errorPatterns` list of `assessResponseQuality` (part_022 lines
121-130), each regex split into its literal parts. -/
def errorPatterns : List (List String) :=
  [ ["i apologize", "cannot", "generate"],
    ["sorry", "unable to"],
    ["i cannot", "provide"],
    ["incomplete", "content", "provided"],
    ["would need", "complete", "content"],
    ["please", "share", "complete"],
    ["without", "actual", "content"],
    ["only contains", "elements"] ]

/-- The `genericPatterns` list (part_022 lines 150-156). -/
def genericPatterns : List (List String) :=
  [ ["summary not available"],
    ["detailed summary not available"],
    ["unable to determine"],
    ["not enough information"],
    ["generic", "description"] ]

/-- The `insufficientPatterns` list (part_022 lines 172-179). -/
def insufficientPatterns : List (List String) :=
  [ ["google tag manager"],
    ["iframe", "elements"],
    ["javascript", "required"],
    ["cookies", "policy"],
    ["accept", "cookies"],
    ["loading", "please", "wait"] ]

/-- The `blockedPatterns` list (part_022 lines 227-235). -/
def blockedPatterns : List (List String) :=
  [ ["access", "denied"],
    ["permission", "required"],
    ["sign", "in", "required"],
    ["subscription", "required"],
    ["paywall"],
    ["403", "forbidden"],
    ["404", "not", "found"] ]

/-- The combined summary text the assessor scans: short summary, a space,
long summary (part_022 lines 132-134; the source lowercases both parts,
which `regexTest` performs on the whole string, an equivalent order since
lowercasing distributes over concatenation). -/
def combinedText (result : AISummaryResult) : String :=
  result.shortSummary ++ " " ++ result.longSummary

/-- Whether any error-acknowledgment pattern matches the combined summary
text (part_022 lines 136-147). -/
def errAckHit (result : AISummaryResult) : Bool :=
  errorPatterns.any (fun p => regexTest p (combinedText result))

/-- Whether any generic-placeholder pattern matches (part_022 lines 158-169). -/
def genericHit (result : AISummaryResult) : Bool :=
  genericPatterns.any (fun p => regexTest p (combinedText result))

/-- Whether any insufficient-content pattern matches the combined summary
text or the original extracted content (part_022 lines 181-192). -/
def insufficientHit (result : AISummaryResult) (originalContent : String) : Bool :=
  insufficientPatterns.any
    (fun p => regexTest p (combinedText result) || regexTest p originalContent)

/-- Short-summary length check (part_022 line 195): in the source the guard
is `result.shortSummary && result.shortSummary.length < 20`, so the empty
string (falsy) does not raise the issue. -/
def shortTooShort (result : AISummaryResult) : Bool :=
  result.shortSummary.length != 0 && decide (result.shortSummary.length < 20)

/-- Long-summary length check (part_022 line 205), same falsy guard. -/
def longTooShort (result : AISummaryResult) : Bool :=
  result.longSummary.length != 0 && decide (result.longSummary.length < 50)

/-- Low provider confidence check (part_022 line 216). -/
def lowConfidenceHit (result : AISummaryResult) : Bool :=
  decide (result.confidence < 1/2)

/-- Whether any blocked-content pattern matches the combined summary text
or the original extracted content (part_022 lines 237-248). -/
def blockedHit (result : AISummaryResult) (originalContent : String) : Bool :=
  blockedPatterns.any
    (fun p => regexTest p (combinedText result) || regexTest p originalContent)

/-- The issue record pushed for each detected defect, with the severities
and descriptions of the source. -/
def issueFor (t : IssueType) : ResponseQualityIssue :=
  match t with
  | .error_acknowledgment =>
    ⟨.error_acknowledgment, .high, "AI explicitly acknowledged inability to analyze content",
      some "Try different scraping method or use metadata only"⟩
  | .generic_response =>
    ⟨.generic_response, .medium, "Response contains generic placeholder text",
      some "Retry analysis with different scraping approach"⟩
  | .insufficient_content =>
    ⟨.insufficient_content, .high,
      "Content appears to be mostly page infrastructure rather than meaningful content",
      some "Use alternative scraping method or mark as low-priority"⟩
  | .incomplete_analysis =>
    ⟨.incomplete_analysis, .medium, "Summary is unusually short",
      some "Verify content extraction quality"⟩
  | .low_confidence =>
    ⟨.low_confidence, .medium, "AI provider reported low confidence in analysis",
      some "Consider retrying or using different provider"⟩
  | .content_blocked =>
    ⟨.content_blocked, .high, "Content appears to be behind authentication or paywall",
      some "Use metadata only or mark as inaccessible"⟩

/-- The second incomplete-analysis issue (long summary too short) has a
different description (part_022 lines 205-213). -/
def longIssue : ResponseQualityIssue :=
  ⟨.incomplete_analysis, .medium, "Detailed summary is unusually short",
    some "Check if content was properly extracted"⟩

/-- The ordered issue list accumulated by `assessResponseQuality`. -/
def assessIssues (result : AISummaryResult) (originalContent : String) :
    List ResponseQualityIssue :=
  (if errAckHit result then [issueFor .error_acknowledgment] else []) ++
  (if genericHit result then [issueFor .generic_response] else []) ++
  (if insufficientHit result originalContent then [issueFor .insufficient_content] else []) ++
  (if shortTooShort result then [issueFor .incomplete_analysis] else []) ++
  (if longTooShort result then [longIssue] else []) ++
  (if lowConfidenceHit result then [issueFor .low_confidence] else []) ++
  (if blockedHit result originalContent then [issueFor .content_blocked] else [])

/-- The total deduction from the starting score of 1.0: each detected
defect subtracts its fixed penalty (part_022: 0.8, 0.4, 0.6, 0.2, 0.2,
0.3, 0.7), and the final score is clamped at 0 (line 251). -/
def assessDeduction (result : AISummaryResult) (originalContent : String) : ℚ :=
  (if errAckHit result then 8/10 else 0) +
  (if genericHit result then 4/10 else 0) +
  (if insufficientHit result originalContent then 6/10 else 0) +
  (if shortTooShort result then 2/10 else 0) +
  (if longTooShort result then 2/10 else 0) +
  (if lowConfidenceHit result then 3/10 else 0) +
  (if blockedHit result originalContent then 7/10 else 0)

/-- The clamped quality score (part_022 lines 118, 251). -/
def assessScore (result : AISummaryResult) (originalContent : String) : ℚ :=
  max 0 (1 - assessDeduction result originalContent)

/-- Derivation of `suggestedAction` from the score and the issue list
(part_022 lines 253-264), translated branch for branch. -/
def deriveSuggestedAction (qualityScore : ℚ) (issues : List ResponseQualityIssue) :
    SuggestedAction :=
  if qualityScore < 3/10 then .mark_as_failed
  else if issues.any (fun i =>
      i.type == IssueType.error_acknowledgment || i.type == IssueType.content_blocked) then
    .retry_different_scraping
  else if issues.any (fun i => i.type == IssueType.insufficient_content) then
    .retry_different_scraping
  else if qualityScore < 6/10 then .use_metadata_only
  else .accept

/-- `BaseAIProvider.assessResponseQuality` (part_022 lines 116-273): runs
the heuristic checks in source order, clamps the score, derives the
suggested action, and reports the score as the assessment confidence. -/
def assessResponseQuality (result : AISummaryResult) (originalContent : String)
    (_url : String) : ResponseQualityAssessment :=
  let issues := assessIssues result originalContent
  let qualityScore := assessScore result originalContent
  { isHighQuality := decide (7/10 ≤ qualityScore) && issues.isEmpty
    qualityScore := qualityScore
    issues := issues
    suggestedAction := deriveSuggestedAction qualityScore issues
    confidence := qualityScore }

/-! ## General lemmas about the assessor -/

/-- Each penalty term of the deduction sum is nonnegative. -/
lemma ite_penalty_nonneg (b : Bool) (q : ℚ) (hq : 0 ≤ q) :
    (0:ℚ) ≤ if b then q else 0 := by
  cases b <;> simp [hq]

/-- The total deduction is nonnegative. -/
lemma assessDeduction_nonneg (result : AISummaryResult) (originalContent : String) :
    0 ≤ assessDeduction result originalContent := by
  unfold assessDeduction
  refine add_nonneg (add_nonneg (add_nonneg (add_nonneg (add_nonneg (add_nonneg ?_ ?_) ?_) ?_) ?_) ?_) ?_ <;>
    exact ite_penalty_nonneg _ _ (by norm_num)

/-- When the error-acknowledgment check fires, the 0.8 penalty caps the
clamped score at 0.2. -/
lemma assessScore_le_of_errAck (result : AISummaryResult) (originalContent : String)
    (h : errAckHit result = true) :
    assessScore result originalContent ≤ 1/5 := by
  unfold assessScore assessDeduction
  have h2 : (0:ℚ) ≤ (if genericHit result then 4/10 else 0) := ite_penalty_nonneg _ _ (by norm_num)
  have h3 : (0:ℚ) ≤ (if insufficientHit result originalContent then 6/10 else 0) :=
    ite_penalty_nonneg _ _ (by norm_num)
  have h4 : (0:ℚ) ≤ (if shortTooShort result then 2/10 else 0) := ite_penalty_nonneg _ _ (by norm_num)
  have h5 : (0:ℚ) ≤ (if longTooShort result then 2/10 else 0) := ite_penalty_nonneg _ _ (by norm_num)
  have h6 : (0:ℚ) ≤ (if lowConfidenceHit result then 3/10 else 0) := ite_penalty_nonneg _ _ (by norm_num)
  have h7 : (0:ℚ) ≤ (if blockedHit result originalContent then 7/10 else 0) :=
    ite_penalty_nonneg _ _ (by norm_num)
  rw [h]
  simp only [if_true]
  refine max_le (by norm_num) ?_
  linarith

/-- The first branch of the action derivation: `mark_as_failed` is chosen
exactly for scores strictly below 0.3, whatever the issue list. -/
lemma deriveSuggestedAction_mark_as_failed_iff (qualityScore : ℚ)
    (issues : List ResponseQualityIssue) :
    deriveSuggestedAction qualityScore issues = SuggestedAction.mark_as_failed ↔
      qualityScore < 3/10 := by
  unfold deriveSuggestedAction
  constructor
  · intro h
    by_contra hlt
    rw [if_neg hlt] at h
    split at h <;> simp_all
    split at h <;> simp_all
    split at h <;> simp_all
  · intro h
    rw [if_pos h]

/-- C7: `suggestedAction` is `mark_as_failed` exactly when the computed
quality score is strictly below 0.3; in particular the action derivation of
part_022 lines 253-264 maps a score of 0.29 to `mark_as_failed` and a score
of exactly 0.3 to something else, whatever the issue list. -/
theorem mark_as_failed_iff_score_below_threshold :
    ∀ (result : AISummaryResult) (content url : String)
      (issues : List ResponseQualityIssue),
      ((assessResponseQuality result content url).suggestedAction =
          SuggestedAction.mark_as_failed ↔
        (assessResponseQuality result content url).qualityScore < 3/10)
      ∧ deriveSuggestedAction (29/100) issues = SuggestedAction.mark_as_failed
      ∧ deriveSuggestedAction (3/10) issues ≠ SuggestedAction.mark_as_failed := by
  intro result content url issues
  refine ⟨?_, ?_, ?_⟩
  · simp only [assessResponseQuality]
    exact deriveSuggestedAction_mark_as_failed_iff _ _
  · rw [deriveSuggestedAction_mark_as_failed_iff]
    norm_num
  · rw [Ne, deriveSuggestedAction_mark_as_failed_iff]
    norm_num

/-! ## The spec scenario for the literal apology string (claim C1) -/

/-- A summary result whose long summary is exactly the literal string of the
spec scenario, with an ordinary short summary and the 0.8 confidence that
`ClaudeProvider.summarize` assigns before quality adjustment. -/
def literalApologySummary : AISummaryResult :=
  { shortSummary := "Overview of the example.com article"
    longSummary := "I apologize, I cannot analyze this content"
    tags := some []
    category := some "Uncategorized"
    provider := "claude"
    confidence := 4/5
    error := none
    qualityScore := none
    qualityIssues := none }

/-- Ordinary extracted page text that matches none of the assessor patterns. -/
def gardeningContent : String :=
  "A plain article about gardening techniques and seasonal planting advice for temperate climates."

/-- Outcome of every individual heuristic check on the literal-apology
scenario: only the long-summary length check fires. -/
lemma literalApology_hits :
    errAckHit literalApologySummary = false ∧
    genericHit literalApologySummary = false ∧
    insufficientHit literalApologySummary gardeningContent = false ∧
    shortTooShort literalApologySummary = false ∧
    longTooShort literalApologySummary = true ∧
    lowConfidenceHit literalApologySummary = false ∧
    blockedHit literalApologySummary gardeningContent = false := by
  refine ⟨by decide, by decide, by decide, by decide, by decide, ?_, by decide⟩
  simp [lowConfidenceHit, literalApologySummary]
  norm_num

/-- Full evaluation of the assessor on the literal-apology scenario. -/
lemma literalApology_assess :
    (assessResponseQuality literalApologySummary gardeningContent
        "https://example.com/a").issues = [longIssue] ∧
    (assessResponseQuality literalApologySummary gardeningContent
        "https://example.com/a").qualityScore = 4/5 ∧
    (assessResponseQuality literalApologySummary gardeningContent
        "https://example.com/a").suggestedAction = SuggestedAction.accept := by
  obtain ⟨h1, h2, h3, h4, h5, h6, h7⟩ := literalApology_hits
  refine ⟨?_, ?_, ?_⟩ <;>
    simp [assessResponseQuality, assessScore, assessDeduction, assessIssues,
      deriveSuggestedAction, longIssue, issueFor, h1, h2, h3, h4, h5, h6, h7] <;>
    norm_num

/-- C1 (counterexample): on a summary whose long summary is exactly the
literal string "I apologize, I cannot analyze this content", the assessor
raises no `error_acknowledgment` issue at all (the string matches none of
the eight refusal regexes, which require words such as "generate" or
"provide"), the quality score is 0.8 rather than at most 0.2, and the
suggested action is `accept` rather than `retry_different_scraping`. -/
theorem assess_literal_apology_not_flagged :
    literalApologySummary.longSummary = "I apologize, I cannot analyze this content" ∧
    (assessResponseQuality literalApologySummary gardeningContent
        "https://example.com/a").issues.all
      (fun i => i.type != IssueType.error_acknowledgment) = true ∧
    (assessResponseQuality literalApologySummary gardeningContent
        "https://example.com/a").qualityScore = 4/5 ∧
    (assessResponseQuality literalApologySummary gardeningContent
        "https://example.com/a").suggestedAction = SuggestedAction.accept := by
  obtain ⟨hi, hs, ha⟩ := literalApology_assess
  refine ⟨rfl, ?_, hs, ha⟩
  rw [hi]
  decide

/-- C1 (amended): the literal string "I apologize, I cannot analyze this
content" matches none of the refusal patterns, so the assessor does not
flag `error_acknowledgment` for it: in the spec scenario it reports only a
medium `incomplete_analysis` issue for the short long summary, scores 0.8
and suggests `accept`.  Moreover, whenever the error-acknowledgment check
does fire, the 0.8 penalty caps the score at 0.2 and the derived action is
`mark_as_failed` (never `retry_different_scraping`, whose branch is
shadowed by the score test). -/
theorem assess_literal_apology_amended :
    ((assessResponseQuality literalApologySummary gardeningContent
          "https://example.com/a").issues = [longIssue] ∧
      (assessResponseQuality literalApologySummary gardeningContent
          "https://example.com/a").qualityScore = 4/5 ∧
      (assessResponseQuality literalApologySummary gardeningContent
          "https://example.com/a").suggestedAction = SuggestedAction.accept) ∧
    ∀ (result : AISummaryResult) (content url : String),
      errAckHit result = true →
        (assessResponseQuality result content url).qualityScore ≤ 1/5 ∧
        (assessResponseQuality result content url).suggestedAction =
          SuggestedAction.mark_as_failed := by
  refine ⟨literalApology_assess, ?_⟩
  intro result content url h
  have hle := assessScore_le_of_errAck result content h
  constructor
  · simpa [assessResponseQuality] using hle
  · simp only [assessResponseQuality]
    rw [deriveSuggestedAction_mark_as_failed_iff]
    have : (1:ℚ)/5 < 3/10 := by norm_num
    exact lt_of_le_of_lt hle this

/-- A summary that genuinely matches the first refusal pattern. -/
def refusalSummary : AISummaryResult :=
  { shortSummary := "Summary attempt"
    longSummary := "I apologize, I cannot generate a summary for this page"
    tags := some []
    category := some "Uncategorized"
    provider := "claude"
    confidence := 4/5
    error := none
    qualityScore := none
    qualityIssues := none }

/-- Witness for the amended C1 theorem: a refusal phrase that does match
the patterns satisfies the hypothesis, and the conclusion evaluates. -/
theorem assess_literal_apology_amended_witness :
    errAckHit refusalSummary = true ∧
    (assessResponseQuality refusalSummary gardeningContent "u").qualityScore ≤ 1/5 ∧
    (assessResponseQuality refusalSummary gardeningContent "u").suggestedAction =
      SuggestedAction.mark_as_failed :=
  ⟨by decide,
    (assess_literal_apology_amended.2 refusalSummary gardeningContent "u" (by decide)).1,
    (assess_literal_apology_amended.2 refusalSummary gardeningContent "u" (by decide)).2⟩

/-! ## Claude summarization provider (src/backend/src/ai/providers/ClaudeProvider.ts)

Network calls and JSON parsing are modelled as oracle inputs: `net` is the
outcome of the HTTP request (an error message, or the text of the model
response paired with the outcome of `JSON.parse` on it).  The provider
function itself is total, which is the Lean rendering of the source fact
that `summarize` wraps its whole body in try/catch and never throws. -/

/-- `AIProviderConfig` (types.ts); only the fields `summarize` consults. -/
structure AIProviderConfig where
  provider : String
  apiKey : Option String
deriving DecidableEq, Repr

/-- `ClaudeProvider.isConfigured` (ClaudeProvider.ts line 55): the source
tests `!!this.config.apiKey`, so a missing key and the empty string are
both unconfigured. -/
def isConfigured (config : AIProviderConfig) : Bool :=
  match config.apiKey with
  | some k => k != ""
  | none => false

/-- JavaScript `v || d` for an optional string: `undefined` and the empty
string both fall back to the default. -/
def jsStrOr (v : Option String) (d : String) : String :=
  match v with
  | some s => if s = "" then d else s
  | none => d

/-- Oracle for `JSON.parse` applied to the model response: the parsed
fields when parsing succeeded.  A present but empty array is truthy in
JavaScript, so `tags` keeps an explicitly empty list. -/
structure ParsedSummaryJson where
  shortSummary : Option String
  longSummary : Option String
  tags : Option (List String)
  category : Option String
deriving DecidableEq, Repr

/-- The four fields produced by `BaseAIProvider.parseAIResponse`. -/
structure ParsedSummary where
  shortSummary : String
  longSummary : String
  tags : List String
  category : String
deriving DecidableEq, Repr

/-- `BaseAIProvider.parseAIResponse` (part_022 lines 38-57): on a JSON
parse success, each field falls back to a placeholder; on failure, the
first non-blank line (capped at 150 characters) becomes the short summary
and the first 1000 characters of the raw body the long summary. -/
def parseAIResponse (raw : String) (json : Option ParsedSummaryJson) : ParsedSummary :=
  match json with
  | some p =>
    { shortSummary := jsStrOr p.shortSummary "AI summary not available"
      longSummary := jsStrOr p.longSummary "Detailed summary not available"
      tags := p.tags.getD []
      category := jsStrOr p.category "Uncategorized" }
  | none =>
    let lines := (splitChar '\n' raw.data).filter lineNonBlank
    { shortSummary :=
        jsStrOr (lines.head?.map (fun l => String.mk (l.take 150))) "AI summary not available"
      longSummary := if raw = "" then "Detailed summary not available" else takeStr 1000 raw
      tags := []
      category := "Uncategorized" }

/-- `BaseAIProvider.createErrorResult` (part_022 lines 104-114). -/
def createErrorResult (providerName err : String) : AISummaryResult :=
  { shortSummary := "Error processing content"
    longSummary := "Failed to generate AI summary: " ++ err
    tags := none
    category := none
    provider := providerName
    confidence := 0
    error := some err
    qualityScore := some 0
    qualityIssues := some ["Processing failed"] }

/-- Rendering of an issue severity for the stored quality-issue strings. -/
def severityLabel : Severity → String
  | .low => "low"
  | .medium => "medium"
  | .high => "high"

/-- The `AISummaryResult` assembled from the parsed response before the
quality assessment (ClaudeProvider.ts lines 130-137): placeholder
fallbacks are applied once more and the confidence starts at 0.8. -/
def claudeBaseResult (parsed : ParsedSummary) : AISummaryResult :=
  { shortSummary := jsStrOr (some parsed.shortSummary) "No summary available"
    longSummary := jsStrOr (some parsed.longSummary) "No detailed summary available"
    tags := some parsed.tags
    category := some (jsStrOr (some parsed.category) "Uncategorized")
    provider := "claude"
    confidence := 8/10
    error := none
    qualityScore := none
    qualityIssues := none }

/-- Quality assessment and confidence capping applied to the assembled
result (ClaudeProvider.ts lines 139-147). -/
def claudeFinalize (result : AISummaryResult) (content url : String) : AISummaryResult :=
  let qa := assessResponseQuality result content url
  { result with
      qualityScore := some qa.qualityScore
      qualityIssues := some (qa.issues.map
        (fun i => severityLabel i.severity ++ ": " ++ i.description))
      confidence := min result.confidence qa.confidence }

/-- `ClaudeProvider.summarize` (ClaudeProvider.ts lines 90-152): an
unconfigured provider or a failed request yields `createErrorResult`;
otherwise the parsed response is assembled with confidence 0.8, assessed
for quality, and the confidence is capped by the assessed confidence. -/
def claudeSummarize (config : AIProviderConfig)
    (net : Except String (Option ParsedSummaryJson × String))
    (content url : String) : AISummaryResult :=
  if !(isConfigured config) then
    createErrorResult "claude" "Claude API key not configured"
  else
    match net with
    | .error e => createErrorResult "claude" e
    | .ok (json, raw) => claudeFinalize (claudeBaseResult (parseAIResponse raw json)) content url

/-- C8: a network or backend error makes `summarize` return normally with
the `error` field set and confidence 0 (via `createErrorResult`); the
total Lean function witnesses that the source never lets an exception
escape the provider boundary, and the same contract holds when the
provider is unconfigured. -/
theorem claude_summarize_error_contract :
    ∀ (config : AIProviderConfig) (e content url : String),
      ((claudeSummarize config (Except.error e) content url).error).isSome = true ∧
      (claudeSummarize config (Except.error e) content url).confidence = 0 ∧
      ((claudeSummarize config (Except.error e) content url).error = some e ∨
        (claudeSummarize config (Except.error e) content url).error =
          some "Claude API key not configured") := by
  intro config e content url
  cases h : isConfigured config <;>
    simp [claudeSummarize, createErrorResult, h]

/-! ## Tiered web scraper (src/backend/src/ai/ProgressiveWebScraperService.ts)

The HTTP layer and the cheerio HTML extraction are modelled as oracles: a
tier that obtains markup is represented by the `PageExtract` the source
would compute from it via `extractContentFromHtml`, or `none` when the
request or parse failed.  The platform URL parser used by the url-only
fallback is likewise an oracle (`Option ParsedURL`), `none` modelling a
`new URL(url)` throw. -/

/-- `WebPageContent` (types.ts), restricted to the fields the pipeline
reads.  No construction site in ProgressiveWebScraperService.ts assigns
`error` or `extractionMethod`, which the model makes visible. -/
structure WebPageContent where
  url : String
  title : String
  textContent : String
  metaDescription : Option String
  error : Option String
  extractionMethod : Option String
deriving DecidableEq, Repr

/-- The triple returned by `extractContentFromHtml` (lines 343-388). -/
structure PageExtract where
  title : String
  textContent : String
  metaDescription : String
deriving DecidableEq, Repr

/-- `config.minContentLength` (line 18). -/
def minContentLength : Nat := 200

/-- The acceptance gate of tiers 1 and 2 (lines 106 and 146): a truthy
title and strictly more than `minContentLength` characters of text. -/
def gateOk (c : PageExtract) : Bool :=
  c.title != "" && decide (c.textContent.length > minContentLength)

/-- Building the returned `WebPageContent` from an accepted extract
(lines 107-115): `metaDescription` is only assigned when truthy, and
neither `error` nor `extractionMethod` is ever set.  Tier 1 stores the
reader-variant URL that succeeded; the model keeps the original URL,
which no claim inspects. -/
def toWebContent (url : String) (c : PageExtract) : WebPageContent :=
  { url := url
    title := c.title
    textContent := c.textContent
    metaDescription := if c.metaDescription = "" then none else some c.metaDescription
    error := none
    extractionMethod := none }

/-- `tryReaderMode` (lines 74-125): each URL variant is attempted in
order; a failed request or an extract failing the gate falls through to
the next variant. -/
def tryReaderMode (url : String) : List (Option PageExtract) → Option WebPageContent
  | [] => none
  | none :: rest => tryReaderMode url rest
  | some c :: rest =>
    if gateOk c then some (toWebContent url c) else tryReaderMode url rest

/-- `tryMobileVersion` (lines 130-163): one attempt with the same gate. -/
def tryMobileVersion (url : String) (attempt : Option PageExtract) : Option WebPageContent :=
  match attempt with
  | some c => if gateOk c then some (toWebContent url c) else none
  | none => none

/-- Hostname and pathname of the platform `new URL` result. -/
structure ParsedURL where
  hostname : String
  pathname : String
deriving DecidableEq, Repr

/-- `hostname.replace(/^www\./, '')` (line 308). -/
def stripWWW (host : String) : String :=
  if "www.".data.isPrefixOf host.data then String.mk (host.data.drop 4) else host

/-- `part.replace(/[-_]/g, ' ')` (line 314). -/
def cleanSegment (cs : List Char) : List Char :=
  cs.map (fun c => if c = '-' ∨ c = '_' then ' ' else c)

/-- JavaScript `parts.join(' ')`. -/
def joinSpace : List (List Char) → List Char
  | [] => []
  | [x] => x
  | x :: rest => x ++ ' ' :: joinSpace rest

/-- The cleaned, space-joined path segments (lines 311-315). -/
def pathPartsOf (pathname : String) : String :=
  String.mk (joinSpace
    (((splitChar '/' pathname.data).filter (fun p => !p.isEmpty)).map cleanSegment))

/-- `urlOnlyAnalysis` (lines 304-337): a synthetic title and description
derived from the URL alone; if even URL parsing throws, a fixed fallback. -/
def urlOnlyAnalysis (url : String) (parsed : Option ParsedURL) : WebPageContent :=
  match parsed with
  | some u =>
    let domain := stripWWW u.hostname
    let pathParts := pathPartsOf u.pathname
    { url := url
      title := if pathParts ≠ "" then pathParts else domain
      textContent := "Content from " ++ domain ++
        (if pathParts ≠ "" then ": " ++ pathParts else "")
      metaDescription := none
      error := none
      extractionMethod := none }
  | none =>
    { url := url
      title := "Unknown Website"
      textContent := "Website: " ++ url
      metaDescription := none
      error := none
      extractionMethod := none }

/-- Oracle inputs of the disk tier: whether the streamed download
succeeded, the extract computed from the read-back file (`none` models a
thrown parse error), and the URL-parser outcome for the fallback. -/
structure DiskOracle where
  downloadOk : Bool
  extract : Option PageExtract
  urlParse : Option ParsedURL
deriving DecidableEq, Repr

/-- `extractFromDiskFile` (lines 236-299): the parsed extract with
`Untitled` and `No content extracted` placeholders, falling back to
`urlOnlyAnalysis` when the parse throws. -/
def extractFromDiskFile (url : String) (d : DiskOracle) : WebPageContent :=
  match d.extract with
  | some c =>
    { url := url
      title := if c.title = "" then "Untitled" else c.title
      textContent := if c.textContent = "" then "No content extracted" else c.textContent
      metaDescription := if c.metaDescription = "" then none else some c.metaDescription
      error := none
      extractionMethod := none }
  | none => urlOnlyAnalysis url d.urlParse

/-- `diskBasedExtraction` (lines 168-231): download failures fall back to
`urlOnlyAnalysis`; the temporary-file bookkeeping has no observable
effect on the returned value. -/
def diskBasedExtraction (url : String) (d : DiskOracle) : WebPageContent :=
  if d.downloadOk then extractFromDiskFile url d else urlOnlyAnalysis url d.urlParse

/-- `scrapeContent` (lines 49-69): reader-mode tier, then mobile tier,
then disk tier. -/
def scrapeContent (url : String) (readerAttempts : List (Option PageExtract))
    (mobileAttempt : Option PageExtract) (disk : DiskOracle) : WebPageContent :=
  match tryReaderMode url readerAttempts with
  | some r => r
  | none =>
    match tryMobileVersion url mobileAttempt with
    | some r => r
    | none => diskBasedExtraction url disk

/-! ## The disk-tier incremental read-back loop (lines 250-273)

The loop is modelled over character lists: each chunk delivered by the
read stream is a `List Char`, and the found-title/found-description/
found-body flags of the source are recomputed on the accumulated text,
which is equivalent because substring presence is preserved when text is
appended on the right. -/

/-- Substring presence in a character list. -/
def hasSub (s pat : List Char) : Bool :=
  (dropAfterMatch pat s).isSome

/-- The three markers whose flags govern the early stop (lines 255-260):
`<title>`, a `name="description"` or `property="og:description"` meta
marker, and `<body`.  The `foundHead` flag of line 255 is tracked but
never read by the stop conditions. -/
def allMarkersFound (s : List Char) : Bool :=
  hasSub s "<title>".data &&
  (hasSub s "name=\"description\"".data || hasSub s "property=\"og:description\"".data) &&
  hasSub s "<body".data

/-- The stop test the source applies after appending each chunk: the
early stop (line 263) requires all three markers AND more than 50 KB
accumulated; the safety stop (line 268) fires above 200 KB. -/
def readStop (s : List Char) : Bool :=
  (allMarkersFound s && decide (s.length > 50 * 1024)) || decide (s.length > 200 * 1024)

/-- The chunked read-back loop of `extractFromDiskFile` (lines 251-271). -/
def readChunks : List (List Char) → List Char → List Char
  | [], acc => acc
  | c :: rest, acc =>
    let acc2 := acc ++ c
    if readStop acc2 then acc2 else readChunks rest acc2

/-- Modelled from the spec: the stop condition the specification
describes, "stopping as soon as a title, a meta-description, and the
start of the body have all been observed, or the ~200 KB ceiling is
reached", with no 50 KB clause. -/
def readStopClaimed (s : List Char) : Bool :=
  allMarkersFound s || decide (s.length > 200 * 1024)

/-- Modelled from the spec: the read loop as the specification describes it. -/
def readChunksClaimed : List (List Char) → List Char → List Char
  | [], acc => acc
  | c :: rest, acc =>
    let acc2 := acc ++ c
    if readStopClaimed acc2 then acc2 else readChunksClaimed rest acc2

/-! ## Lemmas about the scraper -/

/-- A string with a nonempty left part is nonempty. -/
lemma append_left_ne_empty (s t : String) (h : s ≠ "") : s ++ t ≠ "" := by
  intro he
  have hd := congrArg String.data he
  rw [String.data_append] at hd
  have h2 : s.data = [] := (List.append_eq_nil.mp hd).1
  exact h (by cases s; simp_all)

/-- Every accepted reader-mode result passed the gate: truthy title, more
than `minContentLength` characters, and no error. -/
lemma tryReaderMode_gate (url : String) :
    ∀ (attempts : List (Option PageExtract)) (r : WebPageContent),
      tryReaderMode url attempts = some r →
      r.title ≠ "" ∧ r.textContent.length > minContentLength ∧ r.error = none := by
  intro attempts
  induction attempts with
  | nil => intro r h; simp [tryReaderMode] at h
  | cons a rest ih =>
    intro r h
    cases a with
    | none => exact ih r h
    | some c =>
      rw [show tryReaderMode url (some c :: rest) =
            if gateOk c then some (toWebContent url c) else tryReaderMode url rest from rfl] at h
      by_cases hg : gateOk c = true
      · rw [if_pos hg] at h
        injection h with h
        subst h
        rw [gateOk, Bool.and_eq_true] at hg
        obtain ⟨h1, h2⟩ := hg
        exact ⟨by simpa [toWebContent] using bne_iff_ne.mp h1,
          by simpa [toWebContent] using of_decide_eq_true h2, rfl⟩
      · rw [if_neg hg] at h
        exact ih r h

/-- The mobile tier enforces the same gate. -/
lemma tryMobileVersion_gate (url : String) (attempt : Option PageExtract)
    (r : WebPageContent) (h : tryMobileVersion url attempt = some r) :
    r.title ≠ "" ∧ r.textContent.length > minContentLength ∧ r.error = none := by
  cases attempt with
  | none => simp [tryMobileVersion] at h
  | some c =>
    rw [show tryMobileVersion url (some c) =
          if gateOk c then some (toWebContent url c) else none from rfl] at h
    by_cases hg : gateOk c = true
    · rw [if_pos hg] at h
      injection h with h
      subst h
      rw [gateOk, Bool.and_eq_true] at hg
      obtain ⟨h1, h2⟩ := hg
      exact ⟨by simpa [toWebContent] using bne_iff_ne.mp h1,
        by simpa [toWebContent] using of_decide_eq_true h2, rfl⟩
    · rw [if_neg hg] at h
      exact absurd h (by simp)

/-- The url-only fallback never sets an error and always produces
nonempty text. -/
lemma urlOnlyAnalysis_fields (url : String) (p : Option ParsedURL) :
    (urlOnlyAnalysis url p).error = none ∧ (urlOnlyAnalysis url p).textContent ≠ "" := by
  cases p with
  | none =>
    exact ⟨rfl, append_left_ne_empty _ _ (by decide)⟩
  | some u =>
    refine ⟨rfl, ?_⟩
    show "Content from " ++ stripWWW u.hostname ++ _ ≠ ""
    exact append_left_ne_empty _ _ (append_left_ne_empty _ _ (by decide))

/-- Whether the url-only fallback has a nonempty source for its synthetic
title: either a nonempty domain after stripping `www.`, or nonempty
cleaned path segments (or a URL-parse throw, whose fixed fallback title
is nonempty). -/
def urlTitleSourceNonempty (p : Option ParsedURL) : Bool :=
  match p with
  | some u => stripWWW u.hostname != "" || pathPartsOf u.pathname != ""
  | none => true

/-- Under `urlTitleSourceNonempty`, the url-only title is nonempty. -/
lemma urlOnlyAnalysis_title (url : String) (p : Option ParsedURL)
    (h : urlTitleSourceNonempty p = true) : (urlOnlyAnalysis url p).title ≠ "" := by
  cases p with
  | none => simp [urlOnlyAnalysis]
  | some u =>
    rw [urlTitleSourceNonempty, Bool.or_eq_true] at h
    show (if pathPartsOf u.pathname ≠ "" then pathPartsOf u.pathname
      else stripWWW u.hostname) ≠ ""
    by_cases hp : pathPartsOf u.pathname ≠ ""
    · rw [if_pos hp]
      exact hp
    · rw [if_neg hp]
      rcases h with h | h
      · exact bne_iff_ne.mp h
      · exact absurd (bne_iff_ne.mp h) hp

/-- No construction site of `scrapeContent` ever sets the `error` field. -/
lemma scrapeContent_error_none (url : String) (ra : List (Option PageExtract))
    (m : Option PageExtract) (d : DiskOracle) :
    (scrapeContent url ra m d).error = none := by
  unfold scrapeContent
  cases h1 : tryReaderMode url ra with
  | some r => exact (tryReaderMode_gate url ra r h1).2.2
  | none =>
    cases h2 : tryMobileVersion url m with
    | some r => exact (tryMobileVersion_gate url m r h2).2.2
    | none =>
      obtain ⟨dok, dext, dup⟩ := d
      cases dok with
      | false => exact (urlOnlyAnalysis_fields url dup).1
      | true =>
        cases dext with
        | none => exact (urlOnlyAnalysis_fields url dup).1
        | some c => rfl

/-- C5 (counterexample): with the URL `file:///`, whose platform parse has
hostname `""` and pathname `/` so that both the domain and the path
segments are empty, a run in which every network tier fails returns the
url-only result whose synthetic title is the empty string, against the
claim that the title is nonempty for every URL.  The call still returns
normally with no error and nonempty text. -/
theorem scrape_empty_title_example :
    (scrapeContent "file:///" (List.replicate 8 none) none
        ⟨false, none, some ⟨"", "/"⟩⟩).title = "" ∧
    (scrapeContent "file:///" (List.replicate 8 none) none
        ⟨false, none, some ⟨"", "/"⟩⟩).error = none ∧
    (scrapeContent "file:///" (List.replicate 8 none) none
        ⟨false, none, some ⟨"", "/"⟩⟩).textContent = "Content from " := by
  refine ⟨by decide, by decide, by decide⟩

/-- C5 (amended): `scrapeContent` always returns normally with `error`
unset and nonempty `textContent`; its `title` is nonempty on every
network tier and also on the url-only fallback whenever the parsed URL
leaves a nonempty domain (after stripping `www.`) or nonempty path
segments — but not for URLs such as `file:///` where both are empty. -/
theorem scrape_total_amended :
    ∀ (url : String) (ra : List (Option PageExtract)) (m : Option PageExtract)
      (d : DiskOracle),
      (scrapeContent url ra m d).error = none ∧
      (scrapeContent url ra m d).textContent ≠ "" ∧
      (urlTitleSourceNonempty d.urlParse = true → (scrapeContent url ra m d).title ≠ "") := by
  intro url ra m d
  refine ⟨scrapeContent_error_none url ra m d, ?_, ?_⟩ <;> unfold scrapeContent
  · cases h1 : tryReaderMode url ra with
    | some r =>
      obtain ⟨_, hl, _⟩ := tryReaderMode_gate url ra r h1
      intro hc
      rw [hc] at hl
      exact absurd hl (by decide)
    | none =>
      cases h2 : tryMobileVersion url m with
      | some r =>
        obtain ⟨_, hl, _⟩ := tryMobileVersion_gate url m r h2
        intro hc
        rw [hc] at hl
        exact absurd hl (by decide)
      | none =>
        obtain ⟨dok, dext, dup⟩ := d
        cases dok with
        | false => exact (urlOnlyAnalysis_fields url dup).2
        | true =>
          cases dext with
          | none => exact (urlOnlyAnalysis_fields url dup).2
          | some c =>
            show (if c.textContent = "" then "No content extracted" else c.textContent) ≠ ""
            by_cases hc : c.textContent = ""
            · rw [if_pos hc]
              decide
            · rw [if_neg hc]
              exact hc
  · intro hsrc
    cases h1 : tryReaderMode url ra with
    | some r => exact fun _ => (tryReaderMode_gate url ra r h1).1 (by assumption)
    | none =>
      cases h2 : tryMobileVersion url m with
      | some r => exact fun _ => (tryMobileVersion_gate url m r h2).1 (by assumption)
      | none =>
        obtain ⟨dok, dext, dup⟩ := d
        cases dok with
        | false => exact urlOnlyAnalysis_title url dup hsrc
        | true =>
          cases dext with
          | none => exact urlOnlyAnalysis_title url dup hsrc
          | some c =>
            show (if c.title = "" then "Untitled" else c.title) ≠ ""
            by_cases hc : c.title = ""
            · rw [if_pos hc]
              decide
            · rw [if_neg hc]
              exact hc

/-- Witness for the amended C5 theorem: a URL parsing to a nonempty
domain satisfies the title hypothesis. -/
theorem scrape_total_amended_witness :
    urlTitleSourceNonempty (some ⟨"example.com", "/"⟩) = true ∧
    (scrapeContent "https://example.com/" (List.replicate 8 none) none
        ⟨false, none, some ⟨"example.com", "/"⟩⟩).title ≠ "" :=
  ⟨by decide,
    (scrape_total_amended "https://example.com/" (List.replicate 8 none) none
        ⟨false, none, some ⟨"example.com", "/"⟩⟩).2.2 (by decide)⟩

/-- C6: the extraction tiers run strictly in the order reader-mode,
mobile-agent, disk-streamed; a tier-1 result makes the overall result
that tier-1 result, independent of the mobile and disk oracles (so the
later tiers are never consulted), a tier-2 result after a tier-1 miss
likewise short-circuits the disk tier, and any accepted tier-1 or tier-2
result passed the non-empty-title and 200-character gate. -/
theorem scrape_tier_order_short_circuit :
    ∀ (url : String) (ra : List (Option PageExtract)) (m m2 : Option PageExtract)
      (d d2 : DiskOracle) (r : WebPageContent),
      (tryReaderMode url ra = some r →
        scrapeContent url ra m d = r ∧
        scrapeContent url ra m d = scrapeContent url ra m2 d2) ∧
      (tryReaderMode url ra = none → tryMobileVersion url m = some r →
        scrapeContent url ra m d = r ∧
        scrapeContent url ra m d = scrapeContent url ra m d2) ∧
      ((tryReaderMode url ra = some r ∨ tryMobileVersion url m = some r) →
        r.title ≠ "" ∧ r.textContent.length > minContentLength) := by
  intro url ra m m2 d d2 r
  refine ⟨fun h1 => ?_, fun h1 h2 => ?_, fun h => ?_⟩
  · constructor <;> simp [scrapeContent, h1]
  · constructor <;> simp [scrapeContent, h1, h2]
  · rcases h with h | h
    · obtain ⟨a, b, _⟩ := tryReaderMode_gate url ra r h
      exact ⟨a, b⟩
    · obtain ⟨a, b, _⟩ := tryMobileVersion_gate url m r h
      exact ⟨a, b⟩

/-- A 224-character article text that matches none of the assessor
patterns; long enough to pass the tier gate. -/
def longArticleText : String :=
  "This guide walks through planting tomatoes in raised beds, watering on warm mornings, mulching to keep the soil moist, pruning side shoots as the vines climb, and picking ripe fruit through late summer for the kitchen table."

/-- A tier-1 extract that passes the gate. -/
def readerSuccess : PageExtract :=
  { title := "Example Article"
    textContent := longArticleText
    metaDescription := "A guide to growing tomatoes" }

/-- Witness for the C6 theorem: a successful first reader-mode variant
short-circuits the pipeline. -/
theorem scrape_tier_order_short_circuit_witness :
    tryReaderMode "https://example.com/a" [some readerSuccess] =
      some (toWebContent "https://example.com/a" readerSuccess) ∧
    scrapeContent "https://example.com/a" [some readerSuccess] none ⟨false, none, none⟩ =
      toWebContent "https://example.com/a" readerSuccess ∧
    (toWebContent "https://example.com/a" readerSuccess).title ≠ "" ∧
    (toWebContent "https://example.com/a" readerSuccess).textContent.length >
      minContentLength := by
  have h : tryReaderMode "https://example.com/a" [some readerSuccess] =
      some (toWebContent "https://example.com/a" readerSuccess) := by decide
  have happ := scrape_tier_order_short_circuit "https://example.com/a" [some readerSuccess]
    none none ⟨false, none, none⟩ ⟨false, none, none⟩
    (toWebContent "https://example.com/a" readerSuccess)
  exact ⟨h, (happ.1 h).1, (happ.2.2 (Or.inl h)).1, (happ.2.2 (Or.inl h)).2⟩

/-! ## Claim C9: the disk-tier read loop -/

/-- C9 (counterexample): a first chunk already containing the title, the
meta-description, and the body start, but far below 50 KB.  The loop the
spec describes would stop there; the source loop keeps reading because
its early stop also demands more than 50 KB of accumulated text. -/
theorem disk_read_stop_example :
    allMarkersFound
      "<title>Doc</title><meta name=\"description\" content=\"d\"><body>".data = true ∧
    "<title>Doc</title><meta name=\"description\" content=\"d\"><body>".data.length ≤
      200 * 1024 ∧
    readChunksClaimed
      ["<title>Doc</title><meta name=\"description\" content=\"d\"><body>".data,
        "<p>more</p>".data] [] =
      "<title>Doc</title><meta name=\"description\" content=\"d\"><body>".data ∧
    readChunks
      ["<title>Doc</title><meta name=\"description\" content=\"d\"><body>".data,
        "<p>more</p>".data] [] ≠
    readChunksClaimed
      ["<title>Doc</title><meta name=\"description\" content=\"d\"><body>".data,
        "<p>more</p>".data] [] := by
  refine ⟨by decide, by decide, by decide, by decide⟩

/-- C9 (amended): the read-back loop stops at the first accumulated
prefix satisfying the source stop condition — all three markers observed
AND more than 50 KB read, or more than 200 KB read — whichever chunk
boundary that happens at first; with no such prefix it consumes every
chunk.  `k` is the number of chunks consumed. -/
theorem disk_read_loop_characterization :
    ∀ (chunks : List (List Char)) (acc : List Char),
      ∃ k, k ≤ chunks.length ∧
        readChunks chunks acc = acc ++ (chunks.take k).flatten ∧
        (readStop (acc ++ (chunks.take k).flatten) = true ∨ k = chunks.length) ∧
        ∀ j, 0 < j → j < k → readStop (acc ++ (chunks.take j).flatten) = false := by
  intro chunks
  induction chunks with
  | nil =>
    intro acc
    exact ⟨0, Nat.le_refl 0, by simp [readChunks], Or.inr rfl, by omega⟩
  | cons c rest ih =>
    intro acc
    by_cases h : readStop (acc ++ c) = true
    · refine ⟨1, by simp, ?_, ?_, by omega⟩
      · simp [readChunks, h]
      · left
        simpa using h
    · rw [Bool.not_eq_true] at h
      obtain ⟨k, hk, hr, hs, hmin⟩ := ih (acc ++ c)
      refine ⟨k + 1, by simpa using hk, ?_, ?_, ?_⟩
      · have hstep : readChunks (c :: rest) acc = readChunks rest (acc ++ c) := by
          simp [readChunks, h]
        rw [hstep, hr]
        simp [List.append_assoc]
      · rcases hs with hs | hs
        · left
          simpa [List.append_assoc] using hs
        · right
          simp [hs]
      · intro j hj1 hj2
        cases j with
        | zero => omega
        | succ j2 =>
          by_cases hj0 : j2 = 0
          · subst hj0
            simpa using h
          · have := hmin j2 (Nat.pos_of_ne_zero hj0) (by omega)
            simpa [List.append_assoc] using this

/-! ## Job queue / orchestrator (src/backend/src/ai/AIService.ts)

The database and the wall clock are external: the model keeps the
in-memory queue state that `AIService` holds (`processingQueue`,
`isProcessing`), the enqueue operations of the two code paths that add
jobs, and the per-job pipeline as a function of oracle inputs for the
database reads and the provider call.  Job timestamps are omitted; no
modelled operation reads them. -/

/-- `AIProcessingJob.status` (types.ts). -/
inductive JobStatus where
  | pending
  | processing
  | completed
  | failed
deriving DecidableEq, Repr

/-- `AIProcessingJob` (types.ts) without its timestamp fields. -/
structure AIProcessingJob where
  id : String
  bookmarkId : String
  status : JobStatus
  provider : String
  priority : Int
  attempts : Nat
  maxAttempts : Nat
deriving DecidableEq, Repr

/-- `AIService.addToQueue` (AIService.ts lines 176-179): push followed by
a stable sort on descending priority.  For a queue already sorted this
equals inserting the new job after the last entry of equal or higher
priority, which is how the model renders it. -/
def addToQueue (q : List AIProcessingJob) (j : AIProcessingJob) : List AIProcessingJob :=
  match q with
  | [] => [j]
  | x :: xs => if x.priority ≥ j.priority then x :: addToQueue xs j else j :: x :: xs

/-- The queue state `AIService` holds in memory (lines 10-11). -/
structure QueueState where
  queue : List AIProcessingJob
  isProcessing : Bool
deriving DecidableEq, Repr

/-- The enqueue performed by `processBookmark` (lines 120-141): add the
job, and call `processQueue` exactly when `isProcessing` is false; the
started loop sets `isProcessing` (line 186) because the queue is
nonempty.  The second component records whether `processQueue` was
invoked. -/
def submitStep (s : QueueState) (j : AIProcessingJob) : QueueState × Bool :=
  let q := addToQueue s.queue j
  let triggered := !s.isProcessing
  let proc := if triggered && !q.isEmpty then true else s.isProcessing
  (⟨q, proc⟩, triggered)

/-- The enqueue performed by the retry timer callback (lines 378-384):
increment the attempt count, reset the status to pending, and add the job
back to the queue.  The callback contains no call to `processQueue`, so
the trigger component is false and `isProcessing` is untouched. -/
def retryRequeue (s : QueueState) (j : AIProcessingJob) : QueueState × Bool :=
  (⟨addToQueue s.queue { j with attempts := j.attempts + 1, status := .pending },
    s.isProcessing⟩, false)

/-- Enqueueing never leaves the queue empty. -/
lemma addToQueue_ne_nil (q : List AIProcessingJob) (j : AIProcessingJob) :
    addToQueue q j ≠ [] := by
  cases q with
  | nil => simp [addToQueue]
  | cons x xs =>
    rw [addToQueue]
    split <;> simp

/-- A concrete failed job with one attempt left. -/
def retryJob : AIProcessingJob :=
  { id := "job-2", bookmarkId := "bm-2", status := .failed, provider := "claude"
    priority := 1, attempts := 1, maxAttempts := 3 }

/-- C3 (counterexample): when the retry timer fires while the worker is
idle and the queue is empty, the queue transitions from empty to
non-empty but `processQueue` is not invoked and `isProcessing` stays
false — the re-enqueued job is not dequeued until some later submit call
runs the loop, against the claim that every empty-to-non-empty transition
triggers the worker. -/
theorem retry_requeue_no_trigger_example :
    (retryRequeue ⟨[], false⟩ retryJob).1.queue ≠ [] ∧
    (retryRequeue ⟨[], false⟩ retryJob).2 = false ∧
    (retryRequeue ⟨[], false⟩ retryJob).1.isProcessing = false := by
  refine ⟨by decide, rfl, rfl⟩

/-- C3 (amended): the submit path triggers the worker loop exactly when
it is not already running, and after a submit the loop is always running;
the retry re-enqueue never invokes the loop and leaves `isProcessing`
unchanged, so a job re-enqueued by the retry timer into an idle service
stays queued until a further submit call. -/
theorem queue_trigger_on_submit_only :
    ∀ (s : QueueState) (j : AIProcessingJob),
      (submitStep s j).2 = !s.isProcessing ∧
      (submitStep s j).1.queue ≠ [] ∧
      (submitStep s j).1.isProcessing = true ∧
      (retryRequeue s j).2 = false ∧
      (retryRequeue s j).1.isProcessing = s.isProcessing ∧
      (retryRequeue s j).1.queue ≠ [] := by
  intro s j
  obtain ⟨q, p⟩ := s
  refine ⟨rfl, addToQueue_ne_nil q j, ?_, rfl, rfl, addToQueue_ne_nil q _⟩
  cases p <;> simp [submitStep, List.isEmpty_eq_false, addToQueue_ne_nil q j]

/-- The failure handler of `processJob` (AIService.ts lines 364-385).
First component: the job row as persisted by the UPDATE of lines 368-375
(status failed, attempts incremented).  Second component: the job the
retry timer re-enqueues five seconds later, or `none` when
`job.attempts < job.maxAttempts - 1` fails and the job stays terminally
failed. -/
def handleJobFailure (j : AIProcessingJob) : AIProcessingJob × Option AIProcessingJob :=
  ({ j with status := .failed, attempts := j.attempts + 1 },
    if j.attempts < j.maxAttempts - 1 then
      some { j with attempts := j.attempts + 1, status := .pending }
    else none)

/-- The in-memory job after `n` consecutive failed attempts, `none` once
the retry policy stops re-enqueueing. -/
def failuresFrom (j : AIProcessingJob) : Nat → Option AIProcessingJob
  | 0 => some j
  | n + 1 => (failuresFrom j n).bind (fun a => (handleJobFailure a).2)

/-- C4: a job with `maxAttempts = 3` that fails three times survives the
first two failures, is persisted as failed with no re-enqueue on the
third, and is never re-enqueued for a fourth or any later attempt. -/
theorem third_failure_terminal :
    ∀ (j : AIProcessingJob), j.maxAttempts = 3 → j.attempts = 0 →
      (∃ a, failuresFrom j 2 = some a ∧ (handleJobFailure a).1.status = JobStatus.failed ∧
        (handleJobFailure a).2 = none) ∧
      ∀ k, failuresFrom j (3 + k) = none := by
  intro j h3 h0
  have f1 : failuresFrom j 1 = some { j with attempts := 1, status := .pending } := by
    simp [failuresFrom, handleJobFailure, h3, h0]
  have f2 : failuresFrom j 2 =
      some { j with attempts := 2, status := JobStatus.pending } := by
    show (failuresFrom j 1).bind _ = _
    rw [f1]
    simp [handleJobFailure, h3]
  have f3 : failuresFrom j 3 = none := by
    show (failuresFrom j 2).bind _ = _
    rw [f2]
    simp [handleJobFailure, h3]
  refine ⟨⟨{ j with attempts := 2, status := JobStatus.pending }, f2, rfl, ?_⟩, ?_⟩
  · simp [handleJobFailure, h3]
  · intro k
    induction k with
    | zero => exact f3
    | succ k2 ih =>
      show (failuresFrom j (3 + k2)).bind _ = _
      rw [ih]
      rfl

/-- A freshly submitted job as `processBookmark` enqueues it (lines
121-130): priority 1, zero attempts, three max attempts. -/
def queuedJob : AIProcessingJob :=
  { id := "job-1", bookmarkId := "bm-1", status := .pending, provider := "claude"
    priority := 1, attempts := 0, maxAttempts := 3 }

/-- Witness for C4 at a concrete fresh job. -/
theorem third_failure_terminal_witness :
    queuedJob.maxAttempts = 3 ∧ queuedJob.attempts = 0 ∧
    failuresFrom queuedJob (3 + 0) = none :=
  ⟨rfl, rfl, (third_failure_terminal queuedJob rfl rfl).2 0⟩

/-! ## The per-job pipeline and the bookmark update (AIService.processJob) -/

/-- The values bound to the UPDATE of AIService.ts lines 310-343, after
the JavaScript `|| null` and `JSON.stringify(x || [])` coercions: the
stringified parameters are kept as lists, and a field is `none` exactly
when the source binds SQL NULL. -/
structure BookmarkSummaryUpdate where
  ai_summary : Option String
  ai_long_summary : Option String
  ai_tags : List String
  ai_category : Option String
  ai_provider : String
  ai_quality_score : Option ℚ
  ai_quality_issues : List String
  extracted_content : Option String
  extraction_method : String
  status : String
deriving DecidableEq, Repr

/-- JavaScript `s || null` for a string: the empty string becomes NULL. -/
def jsStrOrNull (s : String) : Option String :=
  if s = "" then none else some s

/-- JavaScript `v || null` for an optional string. -/
def jsOptStrOrNull (s : Option String) : Option String :=
  match s with
  | some v => jsStrOrNull v
  | none => none

/-- JavaScript `q || null` for an optional number: both `undefined` and
the number 0 (falsy) become NULL. -/
def jsScoreOrNull (q : Option ℚ) : Option ℚ :=
  match q with
  | some v => if v = 0 then none else some v
  | none => none

/-- The single UPDATE statement of `processJob` (lines 310-343),
parameter for parameter. -/
def buildBookmarkUpdate (summary : AISummaryResult) (content : WebPageContent)
    (jobProvider : String) : BookmarkSummaryUpdate :=
  { ai_summary := jsStrOrNull summary.shortSummary
    ai_long_summary := jsStrOrNull summary.longSummary
    ai_tags := summary.tags.getD []
    ai_category := jsOptStrOrNull summary.category
    ai_provider := jobProvider
    ai_quality_score := jsScoreOrNull summary.qualityScore
    ai_quality_issues := summary.qualityIssues.getD []
    extracted_content := jsStrOrNull content.textContent
    extraction_method := jsStrOr content.extractionMethod "unknown"
    status := "ai_analyzed" }

/-- The ways `processJob` can fail, one per throw site of lines 199-354. -/
inductive JobFailureKind where
  | bookmarkMissing
  | scrapingError
  | providerUnavailable
  | aiError
  | updateNoRow
  | statusNotUpdated
deriving DecidableEq, Repr

/-- Outcome of one `processJob` run: the bookmark update written by a
completed job, or the failure that was caught and counted as a failed
attempt. -/
inductive JobOutcome where
  | completed (update : BookmarkSummaryUpdate)
  | failed (reason : JobFailureKind)
deriving DecidableEq, Repr

/-- The `processJob` pipeline (lines 199-363) as a function of its oracle
inputs: whether the bookmark row exists, the scraped content, whether the
named provider is available, the provider result, and the outcome of the
UPDATE (row returned, resulting status).  Each guard mirrors one throw
site, in source order. -/
def processJobOutcome (bookmarkFound : Bool) (content : WebPageContent)
    (providerAvailable : Bool) (summary : AISummaryResult) (jobProvider : String)
    (updateRowReturned : Bool) (updatedStatus : String) : JobOutcome :=
  if !bookmarkFound then .failed .bookmarkMissing
  else if content.error.isSome then .failed .scrapingError
  else if !providerAvailable then .failed .providerUnavailable
  else if summary.error.isSome then .failed .aiError
  else if !updateRowReturned then .failed .updateNoRow
  else if updatedStatus ≠ "ai_analyzed" then .failed .statusNotUpdated
  else .completed (buildBookmarkUpdate summary content jobProvider)

/-- C10: `scrapeContent` never returns a result with `error` set, so the
extraction-error branch of `processJob` (the `Scraping failed` throw of
lines 227-229) is unreachable: no run of the pipeline on scraped content
fails with `scrapingError`, whatever the other oracles do. -/
theorem scraping_failed_branch_unreachable :
    ∀ (url : String) (ra : List (Option PageExtract)) (m : Option PageExtract)
      (d : DiskOracle) (bf pa urr : Bool) (summary : AISummaryResult) (jp st : String),
      (scrapeContent url ra m d).error = none ∧
      processJobOutcome bf (scrapeContent url ra m d) pa summary jp urr st ≠
        JobOutcome.failed JobFailureKind.scrapingError := by
  intro url ra m d bf pa urr summary jp st
  have he := scrapeContent_error_none url ra m d
  refine ⟨he, ?_⟩
  unfold processJobOutcome
  rw [he]
  split
  · simp
  · simp only [Option.isSome_none, Bool.false_eq_true, if_false]
    split
    · simp
    · split
      · simp
      · split
        · simp
        · split
          · simp
          · simp

/-- C2 (amended): a job that completes wrote the bookmark through the one
UPDATE of `buildBookmarkUpdate`, so all grouped fields come from the same
summary in a single atomic write; short summary, long summary and
category are set exactly when the provider returned them nonempty, the
provider column always carries the job provider, but the quality score
column is NULL exactly when the assessed score is 0 (or absent), because
the `|| null` coercion treats 0 as falsy — a completed job can therefore
set only five of the six grouped fields. -/
theorem completed_job_update_fields :
    ∀ (bf pa urr : Bool) (content : WebPageContent) (summary : AISummaryResult)
      (jp st : String) (u : BookmarkSummaryUpdate),
      processJobOutcome bf content pa summary jp urr st = JobOutcome.completed u →
        u = buildBookmarkUpdate summary content jp ∧
        (u.ai_summary.isSome ↔ summary.shortSummary ≠ "") ∧
        (u.ai_long_summary.isSome ↔ summary.longSummary ≠ "") ∧
        (u.ai_category.isSome ↔ summary.category.getD "" ≠ "") ∧
        u.ai_provider = jp ∧
        (u.ai_quality_score.isSome ↔ summary.qualityScore.getD 0 ≠ 0) := by
  intro bf pa urr content summary jp st u h
  unfold processJobOutcome at h
  split at h
  · simp at h
  · split at h
    · simp at h
    · split at h
      · simp at h
      · split at h
        · simp at h
        · split at h
          · simp at h
          · split at h
            · simp at h
            · injection h with h
              subst h
              refine ⟨rfl, ?_, ?_, ?_, rfl, ?_⟩
              · simp [buildBookmarkUpdate, jsStrOrNull]
              · simp [buildBookmarkUpdate, jsStrOrNull]
              · cases hc : summary.category with
                | none => simp [buildBookmarkUpdate, jsOptStrOrNull, hc]
                | some v => simp [buildBookmarkUpdate, jsOptStrOrNull, jsStrOrNull, hc]
              · cases hq : summary.qualityScore with
                | none => simp [buildBookmarkUpdate, jsScoreOrNull, hq]
                | some v => simp [buildBookmarkUpdate, jsScoreOrNull, hq]

/-! ## A reachable zero-score completion (claim C2) -/

/-- A model response that matches both a refusal pattern (penalty 0.8)
and a blocked-content pattern (penalty 0.7), driving the clamped quality
score to 0 while the provider call itself succeeds. -/
def refusalBlockedRaw : String :=
  "I apologize, I cannot generate a summary: subscription required to view this page"

/-- A configured provider. -/
def claudeTestConfig : AIProviderConfig := { provider := "claude", apiKey := some "test-key" }

/-- The summary the provider returns for that response when `JSON.parse`
fails and the line-based fallback is used: no `error`, quality score 0. -/
def zeroScoreSummary : AISummaryResult :=
  claudeSummarize claudeTestConfig (Except.ok (none, refusalBlockedRaw))
    longArticleText "https://example.com/a"

/-- The scraped page of the scenario, produced by the reader-mode tier. -/
def scrapedArticle : WebPageContent := toWebContent "https://example.com/a" readerSuccess

/-- The provider result just before quality assessment. -/
def refusalBlockedBase : AISummaryResult :=
  { shortSummary := refusalBlockedRaw
    longSummary := refusalBlockedRaw
    tags := some []
    category := some "Uncategorized"
    provider := "claude"
    confidence := 8/10
    error := none
    qualityScore := none
    qualityIssues := none }

/-- The parse fallback keeps the single line as both summaries. -/
lemma refusalBlocked_parse :
    claudeBaseResult (parseAIResponse refusalBlockedRaw none) = refusalBlockedBase := by
  rfl

/-- Unfolding the configured, successful provider call. -/
lemma zeroScore_unfold :
    zeroScoreSummary = claudeFinalize refusalBlockedBase longArticleText
      "https://example.com/a" := by
  unfold zeroScoreSummary claudeSummarize
  rw [if_neg (by decide)]
  show claudeFinalize (claudeBaseResult (parseAIResponse refusalBlockedRaw none))
      longArticleText "https://example.com/a" = _
  rw [refusalBlocked_parse]

/-- The heuristic checks on the refusal-and-paywall response: exactly the
error-acknowledgment and blocked-content patterns fire. -/
lemma refusalBlocked_hits :
    errAckHit refusalBlockedBase = true ∧
    genericHit refusalBlockedBase = false ∧
    insufficientHit refusalBlockedBase longArticleText = false ∧
    shortTooShort refusalBlockedBase = false ∧
    longTooShort refusalBlockedBase = false ∧
    lowConfidenceHit refusalBlockedBase = false ∧
    blockedHit refusalBlockedBase longArticleText = true := by
  refine ⟨by decide, by decide, by decide, by decide, by decide, ?_, by decide⟩
  simp [lowConfidenceHit, refusalBlockedBase]
  norm_num

/-- The clamped score of the scenario is 0: max 0 (1 - 0.8 - 0.7). -/
lemma refusalBlocked_score :
    assessScore refusalBlockedBase longArticleText = 0 := by
  obtain ⟨h1, h2, h3, h4, h5, h6, h7⟩ := refusalBlocked_hits
  simp [assessScore, assessDeduction, h1, h2, h3, h4, h5, h6, h7]
  norm_num

/-- Field-level evaluation of the zero-score summary. -/
lemma zeroScore_fields :
    zeroScoreSummary.error = none ∧
    zeroScoreSummary.qualityScore = some 0 ∧
    zeroScoreSummary.shortSummary = refusalBlockedRaw ∧
    zeroScoreSummary.longSummary = refusalBlockedRaw ∧
    zeroScoreSummary.tags = some [] ∧
    zeroScoreSummary.category = some "Uncategorized" := by
  rw [zeroScore_unfold]
  refine ⟨rfl, ?_, rfl, rfl, rfl, rfl⟩
  show some (assessResponseQuality refusalBlockedBase longArticleText
      "https://example.com/a").qualityScore = some 0
  rw [show (assessResponseQuality refusalBlockedBase longArticleText
      "https://example.com/a").qualityScore =
    assessScore refusalBlockedBase longArticleText from rfl]
  rw [refusalBlocked_score]

/-- C2 (counterexample): a job can complete with a provider summary whose
assessed quality score is 0 and no error; the single UPDATE then binds
NULL for `ai_quality_score` (the `|| null` coercion) while the short
summary, long summary, category, and provider columns are all set — a
completed job leaving exactly a strict partial subset of the six grouped
fields set, against the claim that this never happens. -/
theorem completed_job_five_of_six_fields_example :
    zeroScoreSummary.error = none ∧
    zeroScoreSummary.qualityScore = some 0 ∧
    processJobOutcome true scrapedArticle true zeroScoreSummary "claude" true
      "ai_analyzed" =
      JobOutcome.completed (buildBookmarkUpdate zeroScoreSummary scrapedArticle "claude") ∧
    (buildBookmarkUpdate zeroScoreSummary scrapedArticle "claude").ai_quality_score =
      none ∧
    (buildBookmarkUpdate zeroScoreSummary scrapedArticle "claude").ai_summary.isSome =
      true ∧
    (buildBookmarkUpdate zeroScoreSummary scrapedArticle
        "claude").ai_long_summary.isSome = true ∧
    (buildBookmarkUpdate zeroScoreSummary scrapedArticle "claude").ai_category.isSome =
      true ∧
    (buildBookmarkUpdate zeroScoreSummary scrapedArticle "claude").ai_provider =
      "claude" := by
  obtain ⟨he, hq, hs, hl, ht, hc⟩ := zeroScore_fields
  refine ⟨he, hq, ?_, ?_, ?_, ?_, ?_, rfl⟩
  · unfold processJobOutcome
    rw [he]
    simp [scrapedArticle, toWebContent]
  · simp [buildBookmarkUpdate, jsScoreOrNull, hq]
  · simp [buildBookmarkUpdate, jsStrOrNull, hs, refusalBlockedRaw]
  · simp [buildBookmarkUpdate, jsStrOrNull, hl, refusalBlockedRaw]
  · simp [buildBookmarkUpdate, jsOptStrOrNull, jsStrOrNull, hc]

/-- Witness for the amended C2 theorem: a concrete completed run
discharges the completion hypothesis. -/
theorem completed_job_update_fields_witness :
    processJobOutcome true scrapedArticle true refusalBlockedBase "claude" true
      "ai_analyzed" =
      JobOutcome.completed (buildBookmarkUpdate refusalBlockedBase scrapedArticle
        "claude") ∧
    (buildBookmarkUpdate refusalBlockedBase scrapedArticle "claude").ai_provider =
      "claude" ∧
    ((buildBookmarkUpdate refusalBlockedBase scrapedArticle "claude").ai_summary.isSome ↔
      refusalBlockedBase.shortSummary ≠ "") := by
  have h : processJobOutcome true scrapedArticle true refusalBlockedBase "claude" true
      "ai_analyzed" =
      JobOutcome.completed (buildBookmarkUpdate refusalBlockedBase scrapedArticle
        "claude") := by
    unfold processJobOutcome
    simp [scrapedArticle, toWebContent, refusalBlockedBase]
  have happ := completed_job_update_fields true true true scrapedArticle
    refusalBlockedBase "claude" "ai_analyzed"
    (buildBookmarkUpdate refusalBlockedBase scrapedArticle "claude") h
  exact ⟨h, happ.2.2.2.2.1, happ.2.1⟩
